import Mathlib

set_option maxRecDepth 8192

/-
Shallow embedding of src/notifications.go (citemicroservices).

The badger key-value store is modelled as an association list from string
keys to stored values.  A stored value is either a well-formed serialized
Notification (json.Marshal of the flat string struct, which cannot fail and
round-trips) or corrupt bytes on which json.Unmarshal fails.  db.View runs a
read-only transaction, so the read operations return the store unchanged;
db.Update applies the single SetEntry write.  uuid.New().String() is modelled
as an explicit freshID argument to createNotification.
-/

namespace CiteMicro

/-- The persisted record (src/notifications.go lines 12-18). -/
structure Notification where
  ID : String
  Actor : String
  Object : String
  Target : String
  Updated : String
deriving DecidableEq

/-- The LDP container shape (lines 20-24). -/
structure LDNInbox where
  Context : String
  ID : String
  Contains : List String
deriving DecidableEq

/-- The activity-streams member shape (lines 26-34); the source field `Type`
is a reserved word in Lean and is rendered `TypeTag`. -/
structure LDNotification where
  Context : String
  ID : String
  TypeTag : String
  Actor : String
  Object : String
  Target : String
  Updated : String
deriving DecidableEq

/-- The zero value `Notification` of Go, all fields empty. -/
def zeroNotification : Notification := ⟨"", "", "", "", ""⟩

/-- Errors surfaced by the storage engine / deserialization:
badger's ErrKeyNotFound from txn.Get, and a json.Unmarshal failure. -/
inductive StoreErr where
  | keyNotFound
  | deserializationFailure
deriving DecidableEq

/-- A value stored under a key: either the valid serialization of a record,
or bytes on which json.Unmarshal fails. -/
inductive Val where
  | good (n : Notification)
  | corrupt
deriving DecidableEq

def Val.isGood : Val → Bool
  | .good _ => true
  | .corrupt => false

/-- json.Unmarshal of a stored value into a Notification. -/
def unmarshal : Val → Except StoreErr Notification
  | .good n => .ok n
  | .corrupt => .error .deserializationFailure

/-- The badger keyspace, as an association list in key-iteration order. -/
abbrev Store := List (String × Val)

/-- txn.Get: point lookup of a key (first matching entry). -/
def lookupKV : Store → String → Option Val
  | [], _ => none
  | (k', v) :: rest, k => if k' = k then some v else lookupKV rest k

/-- txn.SetEntry: overwrite the entry at the key, or add one. -/
def setKV : Store → String → Val → Store
  | [], k, v => [(k, v)]
  | (k', v') :: rest, k, v =>
      if k' = k then (k, v) :: rest else (k', v') :: setKV rest k v

/-- it.ValidForPrefix: byte-string prefix test on keys. -/
def keyMatches (p k : String) : Bool := p.data.isPrefixOf k.data

/-- Line 36: `const maxResponseSize = 128`. -/
def maxResponseSize : Nat := 128

/-- The iterator loop of getInbox (lines 45-59): visit every key carrying the
scan prefix, unmarshal its value, append; any unmarshal error aborts the
whole transaction. -/
def scanPref (p : String) : Store → Except StoreErr (List Notification)
  | [] => .ok []
  | (k, v) :: rest =>
    if keyMatches p k then
      match unmarshal v with
      | .error e => .error e
      | .ok n =>
        match scanPref p rest with
        | .error e => .error e
        | .ok ns => .ok (n :: ns)
    else scanPref p rest

/-- getInbox (lines 38-67): a db.View transaction scanning the prefix
`inboxID + "-"`.  The View transaction is read-only, so the store component
is returned unchanged.  Note `make([]Notification, 0, maxResponseSize)` at
line 39 only pre-sizes the accumulator's capacity; the loop never bounds the
number of appended records. -/
def getInbox (s : Store) (inboxID : String) :
    Except StoreErr (List Notification) × Store :=
  (scanPref (inboxID ++ "-") s, s)

/-- The db.View transaction body of getNotification (lines 71-85): point
lookup of the composite key, then json.Unmarshal of the value. -/
def getNotificationTxn (s : Store) (key : String) :
    Except StoreErr Notification :=
  match lookupKV s key with
  | none => .error .keyNotFound
  | some v => unmarshal v

/-- getNotification (lines 69-91): runs the read-only transaction on the key
`inboxID + "-" + notificationID`.  Lines 86-88 turn ANY transaction error
into `return Notification{}, nil`: a success carrying the zero record. -/
def getNotification (s : Store) (inboxID notificationID : String) :
    Except StoreErr Notification × Store :=
  match getNotificationTxn s (inboxID ++ "-" ++ notificationID) with
  | .error _ => (.ok zeroNotification, s)
  | .ok n => (.ok n, s)

/-- The record getNotification's caller receives (always a success, by the
error-swallowing at lines 86-88). -/
def lookupResult (s : Store) (inboxID notificationID : String) : Notification :=
  match (getNotification s inboxID notificationID).1 with
  | .ok n => n
  | .error _ => zeroNotification

/-- createNotification (lines 93-112): overwrite the record's ID with a fresh
uuid, marshal it (cannot fail for this flat string struct), store it under
the composite key in a db.Update transaction, and return `Notification{}, nil`
— the zero record, not the stored one (line 111). -/
def createNotification (s : Store) (inboxID : String)
    (notification : Notification) (freshID : String) :
    Except StoreErr Notification × Store :=
  let stored := { notification with ID := freshID }
  let key := inboxID ++ "-" ++ freshID
  (.ok zeroNotification, setKV s key (Val.good stored))

/-- mapNotificationsID (lines 116-122): per-element image of the IDs. -/
def mapNotificationsID (ns : List Notification) (transform : String → String) :
    List String :=
  ns.map (fun n => transform n.ID)

/-- makeLDNInbox (lines 124-130). -/
def makeLDNInbox (inboxID : String) (makeID : String → String)
    (ns : List Notification) : LDNInbox :=
  { Context := "http://www.w3.org/ns/ldp"
    ID := inboxID
    Contains := mapNotificationsID ns makeID }

/-- makeLDNotification (lines 132-142). -/
def makeLDNotification (makeID : String → String) (n : Notification) :
    LDNotification :=
  { Context := "https://www.w3.org/ns/activitystreams"
    ID := makeID n.ID
    TypeTag := "Announce"
    Actor := n.Actor
    Object := n.Object
    Target := n.Target
    Updated := n.Updated }

/-- One write performed on the http.ResponseWriter; a handler produces the
list of writes in program order. -/
inductive RespEvent where
  | status (code : Nat)
  | header (key value : String)
  | body (text : String)
  | jsonInbox (b : LDNInbox)
  | jsonNotification (n : LDNotification)
deriving DecidableEq

/-- handleInbox (lines 144-185).  The request body of a POST is modelled as
`Option Notification` (`none` = json decode failure); error texts from
err.Error() are modelled by fixed placeholder strings. -/
def handleInbox (s : Store) (host urn method : String)
    (reqBody : Option Notification) (freshID : String) :
    List RespEvent × Store :=
  if method = "POST" then
    match reqBody with
    | none => ([.status 400, .body "decode error"], s)
    | some n =>
      match createNotification s urn n freshID with
      | (.error _, s2) => ([.status 400, .body "create error"], s2)
      | (.ok notification, s2) =>
        ([.header "content-type" "application/ld+json",
          .header "location"
            ("http://" ++ host ++ "/texts/" ++ urn ++ "/inbox/"
              ++ notification.ID),
          .status 201], s2)
  else if method = "GET" then
    match getInbox s urn with
    | (.error _, s2) => ([.status 400, .body "storage error"], s2)
    | (.ok notifications, s2) =>
      let inboxID := "http://" ++ host ++ "/texts/" ++ urn ++ "/inbox"
      let inbox := makeLDNInbox inboxID (fun id => inboxID ++ "/" ++ id)
        notifications
      ([.header "content-type" "application/ld+json", .jsonInbox inbox], s2)
  else
    ([.status 404, .body "Not Found"], s)

/-- handleNotification (lines 187-210).  The non-GET branch (lines 194-197)
writes a 404 status and a "Not Found" body but has no return statement, so
execution continues into the lookup and the second body write. -/
def handleNotification (s : Store) (host urn notificationID method : String) :
    List RespEvent :=
  (if method = "GET" then [] else [.status 404, .body "Not Found"]) ++
  (match (getNotification s urn notificationID).1 with
   | .error _ => [.status 500, .body "Internal Server Error"]
   | .ok n =>
     [.header "content-type" "application/ld+json",
      .jsonNotification (makeLDNotification
        (fun id => "http://" ++ host ++ "/texts/" ++ urn ++ "/inbox/" ++ id)
        n)])

/-- A sample input record, id field to be overwritten at creation. -/
def n0 : Notification := ⟨"", "u1", "o1", "t1", "2024-01-01"⟩

/-- A store holding 129 well-formed records in inbox "a": one more than
maxResponseSize. -/
def store129 : Store :=
  (List.range 129).map
    (fun i => ("a-" ++ Nat.repr i, Val.good ⟨Nat.repr i, "", "", "", ""⟩))

/-- A sample record stored in an inbox whose identifier extends another
inbox's identifier. -/
def recB : Notification := ⟨"n1", "ub", "ob", "tb", "2024"⟩

/-- A sample store with one record in inbox "x". -/
def sW : Store := [("x-y", Val.good n0)]

/-! Helper lemmas about the store primitives. -/

theorem lookupKV_setKV_self (s : Store) (k : String) (v : Val) :
    lookupKV (setKV s k v) k = some v := by
  induction s with
  | nil => simp [setKV, lookupKV]
  | cons e rest ih =>
    obtain ⟨k', v'⟩ := e
    by_cases h : k' = k
    · subst h
      simp [setKV, lookupKV]
    · simp [setKV, lookupKV, h, ih]

theorem lookupKV_setKV_ne (s : Store) (k k' : String) (v : Val)
    (h : k' ≠ k) : lookupKV (setKV s k v) k' = lookupKV s k' := by
  have h' : ¬ (k = k') := fun hh => h hh.symm
  induction s with
  | nil => simp [setKV, lookupKV, h']
  | cons e rest ih =>
    obtain ⟨k'', v''⟩ := e
    by_cases hk : k'' = k
    · subst hk
      simp [setKV, lookupKV, h']
    · by_cases hk' : k'' = k'
      · subst hk'
        simp [setKV, lookupKV, hk]
      · simp [setKV, lookupKV, hk, hk', ih]

theorem scanPref_no_match (p : String) (s : Store)
    (h : ∀ e ∈ s, keyMatches p e.1 = false) : scanPref p s = .ok [] := by
  induction s with
  | nil => rfl
  | cons e rest ih =>
    obtain ⟨k, v⟩ := e
    have hk : keyMatches p k = false := h (k, v) (List.mem_cons_self _ _)
    have hrest : ∀ e ∈ rest, keyMatches p e.1 = false :=
      fun e he => h e (List.mem_cons_of_mem _ he)
    simp [scanPref, hk, ih hrest]

theorem scanPref_all_good (p : String) (s : Store)
    (h : ∀ e ∈ s, keyMatches p e.1 = true → e.2.isGood = true) :
    ∃ ns, scanPref p s = .ok ns ∧
      ns.length = (s.filter (fun e => keyMatches p e.1)).length := by
  induction s with
  | nil => exact ⟨[], rfl, rfl⟩
  | cons e rest ih =>
    obtain ⟨k, v⟩ := e
    have hrest : ∀ e ∈ rest, keyMatches p e.1 = true → e.2.isGood = true :=
      fun e he => h e (List.mem_cons_of_mem _ he)
    obtain ⟨ns, hns, hlen⟩ := ih hrest
    by_cases hk : keyMatches p k = true
    · have hv : v.isGood = true := h (k, v) (List.mem_cons_self _ _) hk
      obtain ⟨n, rfl⟩ : ∃ n, v = Val.good n := by
        cases v with
        | good n => exact ⟨n, rfl⟩
        | corrupt => simp [Val.isGood] at hv
      refine ⟨n :: ns, ?_, ?_⟩
      · simp [scanPref, hk, unmarshal, hns]
      · simp [List.filter_cons, hk, hlen]
    · refine ⟨ns, ?_, ?_⟩
      · simp [scanPref, hk, hns]
      · simp [List.filter_cons, hk, hlen]

theorem getNotification_fst (s : Store) (inboxID notificationID : String) :
    (getNotification s inboxID notificationID).1 =
      .ok (lookupResult s inboxID notificationID) := by
  unfold lookupResult getNotification
  cases getNotificationTxn s (inboxID ++ "-" ++ notificationID) with
  | error e => rfl
  | ok n => rfl

theorem getNotification_snd (s : Store) (inboxID notificationID : String) :
    (getNotification s inboxID notificationID).2 = s := by
  unfold getNotification
  cases getNotificationTxn s (inboxID ++ "-" ++ notificationID) with
  | error e => rfl
  | ok n => rfl

theorem createNotification_snd (s : Store) (inboxID : String)
    (n : Notification) (freshID : String) :
    (createNotification s inboxID n freshID).2 =
      setKV s (inboxID ++ "-" ++ freshID) (Val.good { n with ID := freshID }) :=
  rfl

theorem keyMatches_le_length (A B : String) (h : keyMatches A B = true) :
    A.data.length ≤ B.data.length := by
  unfold keyMatches at h
  exact (List.isPrefixOf_iff_prefix.mp h).length_le

theorem keyMatches_sep_extend (A B nid : String)
    (hlen : A.data.length ≤ B.data.length)
    (hsep : keyMatches (A ++ "-") (B ++ "-") = false) :
    keyMatches (A ++ "-") (B ++ "-" ++ nid) = false := by
  unfold keyMatches at hsep ⊢
  rw [Bool.eq_false_iff] at hsep ⊢
  intro hmatch
  apply hsep
  rw [List.isPrefixOf_iff_prefix] at hmatch ⊢
  have hm : (A ++ "-").data <+: (B ++ "-").data ++ nid.data := by
    simpa [String.data_append, List.append_assoc] using hmatch
  refine List.prefix_of_prefix_length_le hm (List.prefix_append _ _) ?_
  have h1 : (A ++ "-").data.length = A.data.length + ("-" : String).data.length := by
    rw [String.data_append, List.length_append]
  have h2 : (B ++ "-").data.length = B.data.length + ("-" : String).data.length := by
    rw [String.data_append, List.length_append]
  omega

/-! Claim theorems. -/

/-- Claim C1: the claim says getNotification fails with NotFound on an absent
composite key, distinguishably from a StorageFailure, and never reports
success with empty data.  The code (lines 86-88) does the opposite: both an
absent key and a corrupt stored value come back as a SUCCESS carrying the
zero-value record, indistinguishable from each other. -/
theorem claim1_lookup_error_swallowed :
    (getNotification [] "a" "b").1 = .ok zeroNotification ∧
    (getNotification [("a" ++ "-" ++ "b", Val.corrupt)] "a" "b").1 =
      .ok zeroNotification :=
  ⟨rfl, rfl⟩

/-- Claim C2: the claim says createNotification returns the record carrying
the freshly generated identifier and the Location header ends in the
non-empty generated id.  The code (line 111) returns the zero-value record,
so the POST handler's Location header ends in "/inbox/" with an empty id,
even though the record stored under the composite key does carry the fresh
id. -/
theorem claim2_location_missing_id :
    (createNotification [] "work1" n0 "f1").1 = .ok zeroNotification ∧
    (handleInbox [] "h" "work1" "POST" (some n0) "f1").1 =
      [.header "content-type" "application/ld+json",
       .header "location" "http://h/texts/work1/inbox/",
       .status 201] ∧
    lookupKV (handleInbox [] "h" "work1" "POST" (some n0) "f1").2
      ("work1" ++ "-" ++ "f1") = some (Val.good { n0 with ID := "f1" }) := by
  refine ⟨rfl, by decide, by decide⟩

/-- Claim C3 counterexample: a store holding 129 records in one inbox, one
more than maxResponseSize = 128.  getInbox succeeds but returns all 129
records: the fixed cap claimed by the spec does not exist, since
maxResponseSize is only the accumulator's initial capacity. -/
theorem claim3_counterexample :
    (getInbox store129 "a").1.toOption.map List.length = some 129 ∧
    (getInbox store129 "a").1.toOption.map List.length ≠ some maxResponseSize := by
  exact ⟨by decide, by decide⟩

/-- Claim C3 amended: for every store whose values under the inbox's scan
prefix are all well-formed, getInbox succeeds and returns one record per
matching key — all of them, with no truncation at maxResponseSize. -/
theorem claim3_no_truncation (s : Store) (inboxID : String)
    (h : ∀ e ∈ s, keyMatches (inboxID ++ "-") e.1 = true → e.2.isGood = true) :
    (getInbox s inboxID).1.toOption.map List.length =
      some (s.filter (fun e => keyMatches (inboxID ++ "-") e.1)).length := by
  obtain ⟨ns, hok, hlen⟩ := scanPref_all_good (inboxID ++ "-") s h
  have hfst : (getInbox s inboxID).1 = .ok ns := hok
  rw [hfst]
  exact congrArg some hlen

/-- Claim C3 amended, witnessed on the 129-record store. -/
theorem claim3_no_truncation_witness :
    (getInbox store129 "a").1.toOption.map List.length =
      some (store129.filter (fun e => keyMatches ("a" ++ "-") e.1)).length :=
  claim3_no_truncation store129 "a" (by decide)

/-- Claim C4 counterexample: inbox "a" is a strict prefix of inbox "a-b",
and a record stored for inbox "a-b" (key "a-b" + "-" + "n1") is returned by
getInbox "a", because "a-b-n1" carries the scan prefix "a-".  The separator
"-" is a legal character inside inbox identifiers, so the claimed guarantee
fails. -/
theorem claim4_counterexample :
    keyMatches "a" "a-b" = true ∧ ("a" : String) ≠ "a-b" ∧
    (getInbox [("a-b" ++ "-" ++ "n1", Val.good recB)] "a").1 = .ok [recB] := by
  exact ⟨by decide, by decide, rfl⟩

/-- Claim C4 amended: the isolation holds under the extra hypothesis that B
does not continue A with the separator character, i.e. A + "-" is not a
prefix of B + "-".  Then no key of inbox B carries A's scan prefix, and a
scan of A over a store holding only B's records returns nothing. -/
theorem claim4_scan_isolation (A B : String) (hpre : keyMatches A B = true)
    (_hne : A ≠ B) (hsep : keyMatches (A ++ "-") (B ++ "-") = false) :
    (∀ nid, keyMatches (A ++ "-") (B ++ "-" ++ nid) = false) ∧
    (∀ s : Store, (∀ e ∈ s, ∃ nid v, e = (B ++ "-" ++ nid, v)) →
      (getInbox s A).1 = .ok []) := by
  have hlen := keyMatches_le_length A B hpre
  have hcross : ∀ nid, keyMatches (A ++ "-") (B ++ "-" ++ nid) = false :=
    fun nid => keyMatches_sep_extend A B nid hlen hsep
  refine ⟨hcross, ?_⟩
  intro s hs
  show scanPref (A ++ "-") s = .ok []
  apply scanPref_no_match
  intro e he
  obtain ⟨nid, v, rfl⟩ := hs e he
  exact hcross nid

/-- Claim C4 amended, witnessed with A = "a", B = "ab". -/
theorem claim4_scan_isolation_witness :
    keyMatches ("a" ++ "-") ("ab" ++ "-" ++ "n") = false ∧
    (getInbox [("ab" ++ "-" ++ "n", Val.good recB)] "a").1 = .ok [] := by
  have h := claim4_scan_isolation "a" "ab" (by decide) (by decide) (by decide)
  refine ⟨h.1 "n", h.2 [("ab" ++ "-" ++ "n", Val.good recB)] ?_⟩
  intro e he
  rw [List.mem_singleton] at he
  exact ⟨"n", Val.good recB, he⟩

/-- Claim C5: create-then-get round-trips.  Creating a record with fresh
identifier freshID stores it under the composite key; getNotification on
that key succeeds and yields the record with actor, object, target and
updated copied verbatim from the input and id equal to the non-empty
generated identifier. -/
theorem claim5_create_get_roundtrip (s : Store) (inboxID : String)
    (n : Notification) (freshID : String) (hf : freshID ≠ "") :
    (getNotification (createNotification s inboxID n freshID).2
        inboxID freshID).1 = .ok { n with ID := freshID } ∧
    ({ n with ID := freshID }).ID = freshID ∧ freshID ≠ "" := by
  refine ⟨?_, rfl, hf⟩
  have hkey : lookupKV (createNotification s inboxID n freshID).2
      (inboxID ++ "-" ++ freshID) = some (Val.good { n with ID := freshID }) := by
    rw [createNotification_snd]
    exact lookupKV_setKV_self s (inboxID ++ "-" ++ freshID) _
  have htxn : getNotificationTxn (createNotification s inboxID n freshID).2
      (inboxID ++ "-" ++ freshID) = .ok { n with ID := freshID } := by
    unfold getNotificationTxn
    rw [hkey]
    rfl
  unfold getNotification
  rw [htxn]

/-- Claim C5, witnessed at a concrete record and fresh identifier. -/
theorem claim5_create_get_roundtrip_witness :
    (getNotification (createNotification [] "work1" n0 "f1").2
        "work1" "f1").1 = .ok { n0 with ID := "f1" } ∧
    ({ n0 with ID := "f1" }).ID = "f1" ∧ ("f1" : String) ≠ "" :=
  claim5_create_get_roundtrip [] "work1" n0 "f1" (by decide)

/-- Claim C6: makeLDNInbox is a pure function whose container carries the
fixed LDP context, the given self URI, and exactly the input notifications'
ids mapped through the given function, in input order and with the input's
length (so duplicates are kept and nothing is dropped). -/
theorem claim6_container_shape (self : String) (makeID : String → String)
    (ns : List Notification) :
    (makeLDNInbox self makeID ns).Context = "http://www.w3.org/ns/ldp" ∧
    (makeLDNInbox self makeID ns).ID = self ∧
    (makeLDNInbox self makeID ns).Contains = ns.map (fun n => makeID n.ID) ∧
    (makeLDNInbox self makeID ns).Contains.length = ns.length := by
  refine ⟨rfl, rfl, rfl, ?_⟩
  simp [makeLDNInbox, mapNotificationsID]

/-- Claim C7: makeLDNotification is a pure function producing the member
resource with the fixed activity-streams context, the mapped id, the fixed
"Announce" type tag, and actor, object, target and updated copied verbatim
and unvalidated from the input. -/
theorem claim7_member_shape (makeID : String → String) (n : Notification) :
    makeLDNotification makeID n =
      { Context := "https://www.w3.org/ns/activitystreams"
        ID := makeID n.ID
        TypeTag := "Announce"
        Actor := n.Actor
        Object := n.Object
        Target := n.Target
        Updated := n.Updated } :=
  rfl

/-- Claim C8: an inbox with no stored notification — per the spec's data
model, no stored key carrying the inbox's scan prefix — yields a successful
getInbox with the empty sequence, not an error. -/
theorem claim8_empty_inbox (s : Store) (inboxID : String)
    (h : ∀ e ∈ s, keyMatches (inboxID ++ "-") e.1 = false) :
    (getInbox s inboxID).1 = .ok [] :=
  scanPref_no_match (inboxID ++ "-") s h

/-- Claim C8, witnessed on a store holding a record of an unrelated inbox. -/
theorem claim8_empty_inbox_witness :
    (getInbox [("b" ++ "-" ++ "z", Val.good n0)] "a").1 = .ok [] :=
  claim8_empty_inbox [("b" ++ "-" ++ "z", Val.good n0)] "a" (by decide)

/-- Claim C9: for every non-GET request on the single-notification path, the
handler writes the 404 "Not Found" rejection but does not halt: the lookup
still runs and a second response body (the JSON member resource) is written
to the same request. -/
theorem claim9_404_falls_through (s : Store)
    (host urn notificationID method : String) (h : method ≠ "GET") :
    handleNotification s host urn notificationID method =
      [.status 404, .body "Not Found",
       .header "content-type" "application/ld+json",
       .jsonNotification (makeLDNotification
         (fun id => "http://" ++ host ++ "/texts/" ++ urn ++ "/inbox/" ++ id)
         (lookupResult s urn notificationID))] := by
  unfold handleNotification
  rw [getNotification_fst]
  simp [h]

/-- Claim C9, witnessed for a POST on an empty store. -/
theorem claim9_404_falls_through_witness :
    handleNotification [] "h" "w" "x" "POST" =
      [.status 404, .body "Not Found",
       .header "content-type" "application/ld+json",
       .jsonNotification (makeLDNotification
         (fun id => "http://" ++ "h" ++ "/texts/" ++ "w" ++ "/inbox/" ++ id)
         (lookupResult [] "w" "x"))] :=
  claim9_404_falls_through [] "h" "w" "x" "POST" (by decide)

/-- Claim C10: the read operations return the store unchanged (they run in a
read-only View transaction), and createNotification writes only the single
composite key — the value stored under every other key is unchanged. -/
theorem claim10_frame (s : Store) (inboxID notificationID k freshID : String)
    (n : Notification) :
    (getInbox s inboxID).2 = s ∧
    (getNotification s inboxID notificationID).2 = s ∧
    (k ≠ inboxID ++ "-" ++ freshID →
      lookupKV (createNotification s inboxID n freshID).2 k = lookupKV s k) := by
  refine ⟨rfl, getNotification_snd s inboxID notificationID, ?_⟩
  intro hk
  rw [createNotification_snd]
  exact lookupKV_setKV_ne s (inboxID ++ "-" ++ freshID) k
    (Val.good { n with ID := freshID }) hk

/-- Claim C10, witnessed on a one-record store and an unrelated key. -/
theorem claim10_frame_witness :
    (getInbox sW "a").2 = sW ∧
    (getNotification sW "a" "z").2 = sW ∧
    lookupKV (createNotification sW "a" n0 "f").2 "x-y" = lookupKV sW "x-y" := by
  have h := claim10_frame sW "a" "z" "x-y" "f" n0
  exact ⟨h.1, h.2.1, h.2.2 (by decide)⟩

end CiteMicro
